import Mathlib

/-
Shallow embedding of the Convex backend of the vue-convex-clerk-starter
repository: the user-identity synchronization functions (users.ts:
getCurrentUser, store), the shared auth helpers (helpers.ts: requireAuth,
requireUser, getCurrentUserOptional) and the note CRUD operations
(notes.ts: createNote, getNotes, updateNote, deleteNote).

Modelling conventions:
- Document ids are natural numbers handed out by a fresh-id counter in the
  database state; Convex ids are opaque, only equality matters.
- The Convex storage engine is modelled as two in-memory lists (users,
  notes). An indexed query followed by .order("desc").collect() is modelled
  as filtering the list and sorting by createdAt descending: every document
  sets createdAt := Date.now() at insertion time, so createdAt coincides
  with the system _creationTime that Convex orders by.
- .unique() on the by_clerk_id index returns none on zero matches, the
  document on one match, and throws on more than one; the thrown storage
  error is modelled as a distinguished JsError (it is not a ConvexError).
- ConvexError is modelled as a constructor carrying the message string.
- A thrown error aborts the mutation with no partial effect (Convex
  mutations are transactional), so a mutation returns the new database
  only in the success case.
- JavaScript truthiness of the optional filter fields: an Option Bool
  field is truthy exactly when it is some true; an Option billStatus field
  is truthy exactly when it is some s (the status strings are non-empty).
- identity.name ?? identity.email ?? literal is Option.getD chaining.
-/

namespace VCC

/-- Bill status union type of the notes table: "open" | "billed" | "canceled". -/
inductive BillStatus
  | open_
  | billed
  | canceled
deriving DecidableEq

/-- A row of the users table (schema.ts): clerkId, email, name, createdAt,
plus the system-assigned document id. -/
structure User where
  id : Nat
  clerkId : String
  email : String
  name : String
  createdAt : Nat
deriving DecidableEq

/-- A row of the notes table (schema.ts): title, content, createdBy,
billable, optional duration, billStatus, createdAt, plus the document id. -/
structure Note where
  id : Nat
  title : String
  content : String
  createdBy : Nat
  billable : Bool
  duration : Option Int
  billStatus : BillStatus
  createdAt : Nat
deriving DecidableEq

/-- The database state: the two tables and a fresh-id counter. -/
structure DB where
  users : List User
  notes : List Note
  nextId : Nat
deriving DecidableEq

/-- An identity assertion as returned by ctx.auth.getUserIdentity():
subject is required, name and email are optional. The ambient auth context
of a call is an Option Identity (none = not authenticated). -/
structure Identity where
  subject : String
  name : Option String
  email : Option String
deriving DecidableEq

/-- Errors: ConvexError with its message, or a raw JavaScript error thrown
by the storage engine (e.g. .unique() on more than one match). -/
inductive Err
  | ConvexError (msg : String)
  | JsError (msg : String)
deriving DecidableEq

instance {ε α : Type} [DecidableEq ε] [DecidableEq α] :
    DecidableEq (Except ε α) := fun a b =>
  match a, b with
  | .error e₁, .error e₂ => decidable_of_iff (e₁ = e₂) (by simp)
  | .error _, .ok _ => isFalse (fun h => Except.noConfusion h)
  | .ok _, .error _ => isFalse (fun h => Except.noConfusion h)
  | .ok x, .ok y => decidable_of_iff (x = y) (by simp)

/-- Drop leading whitespace characters. -/
def dropLeadingWs : List Char → List Char
  | [] => []
  | c :: cs => if c.isWhitespace then dropLeadingWs cs else c :: cs

/-- Model of JavaScript String.prototype.trim: remove leading and trailing
whitespace. -/
def jsTrim (s : String) : String :=
  ⟨(dropLeadingWs ((dropLeadingWs s.data).reverse)).reverse⟩

def authRequiredMsg : String := "Authentication required"
def userNotFoundMsg : String := "User not found in database"
def integrityMsg : String := "Database integrity error: Duplicate user found"
def storeAuthMsg : String := "Called storeUser without authentication present"
def titleMsg : String := "Title must be between 1 and 200 characters"
def contentMsg : String := "Content must be between 1 and 5000 characters"
def durationMsg : String := "Duration must be between 0 and 1440 minutes"
def noteNotFoundMsg : String := "Note not found"
def forbiddenUpdateMsg : String := "Not authorized to update this note"
def forbiddenDeleteMsg : String := "Not authorized to delete this note"
def uniqueViolationMsg : String := "unique() found more than one document"

/-- The by_clerk_id index scan: all users whose clerkId equals the subject. -/
def lookupByClerkId (users : List User) (subject : String) : List User :=
  users.filter (fun u => decide (u.clerkId = subject))

/-- Convex .unique() on the by_clerk_id index: none on zero matches, the
unique document on one match, a thrown storage error on several. -/
def uniqueByClerkId (users : List User) (subject : String) :
    Except Unit (Option User) :=
  match lookupByClerkId users subject with
  | [] => .ok none
  | [u] => .ok (some u)
  | _ => .error ()

/-- helpers.ts requireAuth: throw ConvexError "Authentication required"
when no identity is present, otherwise return the identity. -/
def requireAuth (auth : Option Identity) : Except Err Identity :=
  match auth with
  | none => .error (Err.ConvexError authRequiredMsg)
  | some identity => .ok identity

/-- helpers.ts requireUser: requireAuth, then a try block that runs the
.unique() lookup and, when no user is found, throws
ConvexError "User not found in database"; the catch swallows any error
thrown inside the try block (the duplicate-detection error from .unique()
and the user-not-found throw alike) and throws
ConvexError "Database integrity error: Duplicate user found". -/
def requireUser (db : DB) (auth : Option Identity) :
    Except Err (Identity × User) :=
  match requireAuth auth with
  | .error e => .error e
  | .ok identity =>
    let tryBlock : Except Err User :=
      match uniqueByClerkId db.users identity.subject with
      | .error _ => .error (Err.JsError uniqueViolationMsg)
      | .ok none => .error (Err.ConvexError userNotFoundMsg)
      | .ok (some u) => .ok u
    match tryBlock with
    | .ok u => .ok (identity, u)
    | .error _ => .error (Err.ConvexError integrityMsg)

/-- helpers.ts getCurrentUserOptional: none when unauthenticated; the
.unique() lookup otherwise, with a duplicate-detection error caught and
downgraded to none. -/
def getCurrentUserOptional (db : DB) (auth : Option Identity) : Option User :=
  match auth with
  | none => none
  | some identity =>
    match uniqueByClerkId db.users identity.subject with
    | .error _ => none
    | .ok r => r

/-- users.ts getCurrentUser query: null when unauthenticated; the .unique()
lookup otherwise, with a duplicate-detection error caught and downgraded to
null. This query never throws. -/
def getCurrentUser (db : DB) (auth : Option Identity) :
    Except Err (Option User) :=
  match auth with
  | none => .ok none
  | some identity =>
    match uniqueByClerkId db.users identity.subject with
    | .error _ => .ok none
    | .ok r => .ok r

/-- Patch the name field of the user with the given id (ctx.db.patch on the
users table). -/
def patchUserName (users : List User) (idv : Nat) (newName : String) :
    List User :=
  users.map (fun u => if u.id = idv then { u with name := newName } else u)

/-- users.ts store mutation. Returns the user id, the new database state
and the number of write operations performed (patch or insert count 1).
When unauthenticated it throws
ConvexError "Called storeUser without authentication present".
The .unique() lookup is not wrapped in a try/catch here, so a duplicate
row propagates as a raw storage error. -/
def store (db : DB) (auth : Option Identity) (now : Nat) :
    Except Err (Nat × DB × Nat) :=
  match auth with
  | none => .error (Err.ConvexError storeAuthMsg)
  | some identity =>
    match uniqueByClerkId db.users identity.subject with
    | .error _ => .error (Err.JsError uniqueViolationMsg)
    | .ok (some user) =>
      let newName := identity.name.getD (identity.email.getD "Unnamed User")
      if user.name = newName then
        .ok (user.id, db, 0)
      else
        .ok (user.id,
             { db with users := patchUserName db.users user.id newName }, 1)
    | .ok none =>
      let newUser : User :=
        { id := db.nextId
          clerkId := identity.subject
          email := identity.email.getD "No email provided"
          name := identity.name.getD (identity.email.getD "Unnamed User")
          createdAt := now }
      .ok (db.nextId,
           { db with users := db.users ++ [newUser], nextId := db.nextId + 1 },
           1)

/-- Insert a note into a list sorted by createdAt descending, keeping it
sorted. -/
def insertByCreatedAtDesc (n : Note) : List Note → List Note
  | [] => [n]
  | m :: ms =>
    if n.createdAt ≤ m.createdAt then m :: insertByCreatedAtDesc n ms
    else n :: m :: ms

/-- Model of .order("desc").collect(): the documents sorted by createdAt
descending (insertion sort; ties keep a deterministic order). -/
def sortByCreatedAtDesc : List Note → List Note
  | [] => []
  | n :: ns => insertByCreatedAtDesc n (sortByCreatedAtDesc ns)

/-- The newest-first ordering relation on notes. -/
def newestFirst (a b : Note) : Prop := b.createdAt ≤ a.createdAt

/-- The optional filter object accepted by getNotes. -/
structure NoteFilters where
  createdByCurrentUser : Option Bool
  billStatus : Option BillStatus
deriving DecidableEq

/-- The default empty filter object (args.filters ?? {}). -/
def emptyFilters : NoteFilters := { createdByCurrentUser := none, billStatus := none }

/-- notes.ts getNotes query: requireAuth, default the filters, then branch
on which filter fields are truthy (a present false boolean is falsy in
JavaScript). The combined branch and the user-only branch resolve the
current user via getCurrentUserOptional and return [] when none. -/
def getNotes (db : DB) (auth : Option Identity)
    (filtersArg : Option NoteFilters) : Except Err (List Note) :=
  match requireAuth auth with
  | .error e => .error e
  | .ok _ =>
    let filters := filtersArg.getD emptyFilters
    if filters.createdByCurrentUser.getD false then
      match filters.billStatus with
      | some billStatus =>
        match getCurrentUserOptional db auth with
        | none => .ok []
        | some user =>
          .ok (sortByCreatedAtDesc (db.notes.filter
            (fun n => decide (n.createdBy = user.id) &&
                      decide (n.billStatus = billStatus))))
      | none =>
        match getCurrentUserOptional db auth with
        | none => .ok []
        | some user =>
          .ok (sortByCreatedAtDesc (db.notes.filter
            (fun n => decide (n.createdBy = user.id))))
    else
      match filters.billStatus with
      | some billStatus =>
        .ok (sortByCreatedAtDesc (db.notes.filter
          (fun n => decide (n.billStatus = billStatus))))
      | none => .ok (sortByCreatedAtDesc db.notes)

/-- Arguments of createNote. -/
structure CreateNoteArgs where
  title : String
  content : String
  billable : Bool
  duration : Option Int
deriving DecidableEq

/-- Duration validation of notes.ts: present and outside [0, 1440]. -/
def durationInvalid : Option Int → Bool
  | some d => decide (d < 0) || decide (d > 1440)
  | none => false

/-- notes.ts createNote mutation: requireUser, trim title and content,
validate the three bounds in order, insert the note with
billStatus "open" and createdAt = now, return the new id. -/
def createNote (db : DB) (auth : Option Identity) (args : CreateNoteArgs)
    (now : Nat) : Except Err (Nat × DB) :=
  match requireUser db auth with
  | .error e => .error e
  | .ok (_, user) =>
    let title := jsTrim args.title
    let content := jsTrim args.content
    if title.length = 0 ∨ title.length > 200 then
      .error (Err.ConvexError titleMsg)
    else if content.length = 0 ∨ content.length > 5000 then
      .error (Err.ConvexError contentMsg)
    else if durationInvalid args.duration then
      .error (Err.ConvexError durationMsg)
    else
      let note : Note :=
        { id := db.nextId
          title := title
          content := content
          createdBy := user.id
          billable := args.billable
          duration := args.duration
          billStatus := BillStatus.open_
          createdAt := now }
      .ok (db.nextId,
           { db with notes := db.notes ++ [note], nextId := db.nextId + 1 })

/-- Arguments of updateNote: the note id plus an arbitrary subset of the
mutable fields (none = field absent from the call). -/
structure UpdateNoteArgs where
  id : Nat
  title : Option String
  content : Option String
  billable : Option Bool
  duration : Option Int
  billStatus : Option BillStatus
deriving DecidableEq

/-- ctx.db.get on the notes table. -/
def findNote (notes : List Note) (idv : Nat) : Option Note :=
  notes.find? (fun n => decide (n.id = idv))

/-- Title validation of updateNote: present (already trimmed) and outside
[1, 200]. -/
def titleOptInvalid : Option String → Bool
  | some t => decide (t.length = 0) || decide (t.length > 200)
  | none => false

/-- Content validation of updateNote: present (already trimmed) and outside
[1, 5000]. -/
def contentOptInvalid : Option String → Bool
  | some c => decide (c.length = 0) || decide (c.length > 5000)
  | none => false

/-- ctx.db.patch on a note: apply exactly the present fields (Convex
ignores undefined values); title and content arrive already trimmed. -/
def patchNote (n : Note) (title content : Option String)
    (billable : Option Bool) (duration : Option Int)
    (billStatus : Option BillStatus) : Note :=
  { n with
    title := title.getD n.title
    content := content.getD n.content
    billable := billable.getD n.billable
    duration := match duration with
                | some d => some d
                | none => n.duration
    billStatus := billStatus.getD n.billStatus }

/-- notes.ts updateNote mutation: requireUser, get the note (404 when
absent), ownership check against the resolved user, trim and validate the
present fields in order, then patch exactly the present fields. -/
def updateNote (db : DB) (auth : Option Identity) (args : UpdateNoteArgs) :
    Except Err DB :=
  match requireUser db auth with
  | .error e => .error e
  | .ok (_, user) =>
    match findNote db.notes args.id with
    | none => .error (Err.ConvexError noteNotFoundMsg)
    | some note =>
      if note.createdBy ≠ user.id then
        .error (Err.ConvexError forbiddenUpdateMsg)
      else
        let title := args.title.map jsTrim
        let content := args.content.map jsTrim
        if titleOptInvalid title then
          .error (Err.ConvexError titleMsg)
        else if contentOptInvalid content then
          .error (Err.ConvexError contentMsg)
        else if durationInvalid args.duration then
          .error (Err.ConvexError durationMsg)
        else
          .ok { db with notes := db.notes.map (fun m =>
            if m.id = args.id then
              patchNote m title content args.billable args.duration
                args.billStatus
            else m) }

/-- notes.ts deleteNote mutation: requireUser, get the note (404 when
absent), ownership check, then delete by id. -/
def deleteNote (db : DB) (auth : Option Identity) (idv : Nat) :
    Except Err DB :=
  match requireUser db auth with
  | .error e => .error e
  | .ok (_, user) =>
    match findNote db.notes idv with
    | none => .error (Err.ConvexError noteNotFoundMsg)
    | some note =>
      if note.createdBy ≠ user.id then
        .error (Err.ConvexError forbiddenDeleteMsg)
      else
        .ok { db with notes := db.notes.filter (fun m => !decide (m.id = idv)) }

/-! Helper lemmas about the sort used to model .order("desc").collect(). -/

theorem insertByCreatedAtDesc_perm (n : Note) (l : List Note) :
    (insertByCreatedAtDesc n l).Perm (n :: l) := by
  induction l with
  | nil => simp [insertByCreatedAtDesc]
  | cons m ms ih =>
    simp only [insertByCreatedAtDesc]
    split
    · exact (ih.cons m).trans (List.Perm.swap n m ms)
    · exact List.Perm.refl _

theorem sortByCreatedAtDesc_perm (l : List Note) :
    (sortByCreatedAtDesc l).Perm l := by
  induction l with
  | nil => simp [sortByCreatedAtDesc]
  | cons n ns ih =>
    exact (insertByCreatedAtDesc_perm n (sortByCreatedAtDesc ns)).trans (ih.cons n)

theorem insertByCreatedAtDesc_pairwise (n : Note) (l : List Note)
    (h : l.Pairwise newestFirst) :
    (insertByCreatedAtDesc n l).Pairwise newestFirst := by
  induction l with
  | nil => simp [insertByCreatedAtDesc, newestFirst]
  | cons m ms ih =>
    rw [List.pairwise_cons] at h
    obtain ⟨h1, h2⟩ := h
    by_cases hle : n.createdAt ≤ m.createdAt
    · rw [insertByCreatedAtDesc, if_pos hle, List.pairwise_cons]
      refine ⟨?_, ih h2⟩
      intro b hb
      have hb' : b ∈ n :: ms := (insertByCreatedAtDesc_perm n ms).mem_iff.mp hb
      rcases List.mem_cons.mp hb' with hb' | hb'
      · subst hb'
        exact hle
      · exact h1 b hb'
    · rw [insertByCreatedAtDesc, if_neg hle, List.pairwise_cons]
      refine ⟨?_, ?_⟩
      · intro b hb
        rcases List.mem_cons.mp hb with hb' | hb'
        · subst hb'
          unfold newestFirst
          omega
        · have hmb := h1 b hb'
          unfold newestFirst at *
          omega
      · rw [List.pairwise_cons]
        exact ⟨h1, h2⟩

theorem sortByCreatedAtDesc_pairwise (l : List Note) :
    (sortByCreatedAtDesc l).Pairwise newestFirst := by
  induction l with
  | nil => simp [sortByCreatedAtDesc]
  | cons n ns ih => exact insertByCreatedAtDesc_pairwise n _ ih

/-! Helper lemmas about the unique lookup. -/

theorem lookup_of_unique_some (users : List User) (s : String) (u : User)
    (h : uniqueByClerkId users s = .ok (some u)) :
    lookupByClerkId users s = [u] := by
  unfold uniqueByClerkId at h
  cases hl : lookupByClerkId users s with
  | nil => rw [hl] at h; simp at h
  | cons a t =>
    cases t with
    | nil =>
      rw [hl] at h
      simp only [Except.ok.injEq, Option.some.injEq] at h
      rw [h]
    | cons b t2 => rw [hl] at h; simp at h

theorem lookup_patchUserName (users : List User) (s : String) (idv : Nat)
    (nm : String) :
    lookupByClerkId (patchUserName users idv nm) s
      = (lookupByClerkId users s).map
          (fun x => if x.id = idv then { x with name := nm } else x) := by
  induction users with
  | nil => rfl
  | cons a t ih =>
    simp only [patchUserName, lookupByClerkId, List.map_cons, List.filter_cons] at *
    by_cases hid : a.id = idv <;> by_cases hcl : a.clerkId = s <;>
      simp [hid, hcl, ih, patchUserName, lookupByClerkId]

/-! Helper lemma about the duration bound. -/

theorem durationInvalid_eq_false (o : Option Int) :
    durationInvalid o = false ↔ ∀ d, o = some d → 0 ≤ d ∧ d ≤ 1440 := by
  cases o with
  | none => simp [durationInvalid]
  | some d =>
    simp only [durationInvalid, Bool.or_eq_false_iff, decide_eq_false_iff_not,
      not_lt, Option.some.injEq]
    constructor
    · rintro ⟨hm, hM⟩ d' hd
      subst hd
      omega
    · intro hall
      have := hall d rfl
      omega

/-! Claim theorems. -/

/-- Concrete failing input for C1: an authenticated identity whose subject
has no User row, against an empty database. -/
def c1db : DB := { users := [], notes := [], nextId := 0 }

def c1ident : Identity := { subject := "u1", name := some "Alice", email := some "a@x.com" }

def c1args : CreateNoteArgs :=
  { title := "Hello", content := "World", billable := false, duration := none }

def c1upd : UpdateNoteArgs :=
  { id := 0, title := none, content := none, billable := none,
    duration := none, billStatus := some BillStatus.billed }

/-- C1: the claim says createNote, updateNote and deleteNote fail with the
UserNotFound error ("User not found in database") when the caller is
authenticated but has no User row, distinguishable from the IntegrityError.
The code disagrees: in requireUser the user-not-found throw sits inside the
try block, so the catch intercepts it and replaces it with
ConvexError "Database integrity error: Duplicate user found". At the
concrete failing input all three mutations surface the integrity message
and none surfaces the user-not-found message. -/
theorem c1_requireUser_not_found_surfaces_integrity_error :
    requireUser c1db (some c1ident) = .error (Err.ConvexError integrityMsg) ∧
    createNote c1db (some c1ident) c1args 0
      = .error (Err.ConvexError integrityMsg) ∧
    updateNote c1db (some c1ident) c1upd
      = .error (Err.ConvexError integrityMsg) ∧
    deleteNote c1db (some c1ident) 0
      = .error (Err.ConvexError integrityMsg) ∧
    createNote c1db (some c1ident) c1args 0
      ≠ .error (Err.ConvexError userNotFoundMsg) := by
  decide

/-- C2 counterexample: the claim says every listed operation, including
getCurrentUserOptional (users.ts getCurrentUser), fails with AuthRequired
when no identity assertion is present. At the concrete input (empty
database, no identity) getCurrentUser returns the value null instead of
failing. -/
theorem c2_getCurrentUser_returns_null_unauthenticated :
    getCurrentUser { users := [], notes := [], nextId := 0 } none
      = .ok none := by
  decide

/-- C2 (amended): with no identity assertion present, store fails with its
authentication error ("Called storeUser without authentication present"),
and createNote, getNotes, updateNote and deleteNote fail with
ConvexError "Authentication required", while getCurrentUser returns null
rather than failing. -/
theorem c2_unauthenticated_behaviour (db : DB) (ca : CreateNoteArgs)
    (ua : UpdateNoteArgs) (f : Option NoteFilters) (idv now : Nat) :
    store db none now = .error (Err.ConvexError storeAuthMsg) ∧
    getCurrentUser db none = .ok none ∧
    createNote db none ca now = .error (Err.ConvexError authRequiredMsg) ∧
    getNotes db none f = .error (Err.ConvexError authRequiredMsg) ∧
    updateNote db none ua = .error (Err.ConvexError authRequiredMsg) ∧
    deleteNote db none idv = .error (Err.ConvexError authRequiredMsg) :=
  ⟨rfl, rfl, rfl, rfl, rfl, rfl⟩

/-! Shared concrete test fixture: two users A and B and three notes
(A/open at time 10, A/billed at time 20, B/open at time 30). -/

def tuA : User := ⟨0, "a", "ea", "A", 0⟩
def tuB : User := ⟨1, "b", "eb", "B", 0⟩
def tn1 : Note := ⟨2, "t1", "c1", 0, true, none, BillStatus.open_, 10⟩
def tn2 : Note := ⟨3, "t2", "c2", 0, false, none, BillStatus.billed, 20⟩
def tn3 : Note := ⟨4, "t3", "c3", 1, true, none, BillStatus.open_, 30⟩
def tdb : DB := ⟨[tuA, tuB], [tn1, tn2, tn3], 5⟩
def tidA : Identity := ⟨"a", none, none⟩
def tidB : Identity := ⟨"b", none, none⟩

/-- C3: for an authenticated caller whose user resolves to u, getNotes with
both filters returns exactly (as a permutation) the caller's notes with the
given billStatus; with billStatus alone, every note with that status; with
no filters, all notes; and every branch is ordered newest-first by
createdAt. -/
theorem c3_getNotes_filter_composition (db : DB) (ident : Identity)
    (u : User) (s : BillStatus)
    (h : getCurrentUserOptional db (some ident) = some u) :
    (∃ l, getNotes db (some ident)
        (some { createdByCurrentUser := some true, billStatus := some s })
          = .ok l ∧
      l.Perm (db.notes.filter
        (fun n => decide (n.createdBy = u.id) && decide (n.billStatus = s))) ∧
      l.Pairwise newestFirst) ∧
    (∃ l, getNotes db (some ident)
        (some { createdByCurrentUser := none, billStatus := some s })
          = .ok l ∧
      l.Perm (db.notes.filter (fun n => decide (n.billStatus = s))) ∧
      l.Pairwise newestFirst) ∧
    (∃ l, getNotes db (some ident) none = .ok l ∧
      l.Perm db.notes ∧ l.Pairwise newestFirst) := by
  refine ⟨⟨_, ?_, sortByCreatedAtDesc_perm _, sortByCreatedAtDesc_pairwise _⟩,
          ⟨_, ?_, sortByCreatedAtDesc_perm _, sortByCreatedAtDesc_pairwise _⟩,
          ⟨_, ?_, sortByCreatedAtDesc_perm _, sortByCreatedAtDesc_pairwise _⟩⟩
  · simp [getNotes, requireAuth, h]
  · simp [getNotes, requireAuth]
  · simp [getNotes, requireAuth, emptyFilters]

/-- C3 witness: the filter-composition theorem applied to the concrete
fixture as user A with status open. -/
theorem c3_getNotes_filter_composition_witness :
    getCurrentUserOptional tdb (some tidA) = some tuA ∧
    ((∃ l, getNotes tdb (some tidA)
        (some { createdByCurrentUser := some true,
                billStatus := some BillStatus.open_ }) = .ok l ∧
      l.Perm (tdb.notes.filter
        (fun n => decide (n.createdBy = tuA.id) &&
                  decide (n.billStatus = BillStatus.open_))) ∧
      l.Pairwise newestFirst) ∧
    (∃ l, getNotes tdb (some tidA)
        (some { createdByCurrentUser := none,
                billStatus := some BillStatus.open_ }) = .ok l ∧
      l.Perm (tdb.notes.filter
        (fun n => decide (n.billStatus = BillStatus.open_))) ∧
      l.Pairwise newestFirst) ∧
    (∃ l, getNotes tdb (some tidA) none = .ok l ∧
      l.Perm tdb.notes ∧ l.Pairwise newestFirst)) :=
  ⟨by decide,
   c3_getNotes_filter_composition tdb tidA tuA BillStatus.open_ (by decide)⟩

/-- C4: for a caller with a resolved User, createNote succeeds exactly when
the trimmed title length is in [1,200], the trimmed content length is in
[1,5000] and any present duration is in [0,1440]; every failure is a
ValidationError naming one of the three bounds. -/
theorem c4_createNote_validation (db : DB) (auth : Option Identity)
    (args : CreateNoteArgs) (now : Nat) (p : Identity × User)
    (h : requireUser db auth = .ok p) :
    ((∃ r, createNote db auth args now = .ok r) ↔
      (1 ≤ (jsTrim args.title).length ∧ (jsTrim args.title).length ≤ 200 ∧
       1 ≤ (jsTrim args.content).length ∧
       (jsTrim args.content).length ≤ 5000 ∧
       ∀ d, args.duration = some d → 0 ≤ d ∧ d ≤ 1440)) ∧
    (∀ e, createNote db auth args now = .error e →
      e = Err.ConvexError titleMsg ∨ e = Err.ConvexError contentMsg ∨
      e = Err.ConvexError durationMsg) := by
  obtain ⟨i, u⟩ := p
  simp only [createNote, h]
  split_ifs with h1 h2 h3
  · constructor
    · constructor
      · rintro ⟨r, hr⟩
        exact absurd hr (by simp)
      · rintro ⟨ha1, ha2, _⟩
        omega
    · intro e he
      simp only [Except.error.injEq] at he
      subst he
      exact Or.inl rfl
  · constructor
    · constructor
      · rintro ⟨r, hr⟩
        exact absurd hr (by simp)
      · rintro ⟨_, _, hb1, hb2, _⟩
        omega
    · intro e he
      simp only [Except.error.injEq] at he
      subst he
      exact Or.inr (Or.inl rfl)
  · constructor
    · constructor
      · rintro ⟨r, hr⟩
        exact absurd hr (by simp)
      · rintro ⟨_, _, _, _, hdur⟩
        rw [(durationInvalid_eq_false args.duration).mpr hdur] at h3
        cases h3
    · intro e he
      simp only [Except.error.injEq] at he
      subst he
      exact Or.inr (Or.inr rfl)
  · constructor
    · constructor
      · intro _
        push_neg at h1 h2
        refine ⟨by omega, by omega, by omega, by omega, ?_⟩
        exact (durationInvalid_eq_false args.duration).mp
          (Bool.not_eq_true _ ▸ h3)
      · intro _
        exact ⟨_, rfl⟩
    · intro e he
      exact absurd he (by simp)

/-- C4 witness: the validation theorem applied to the fixture as user A
with valid arguments (duration exactly 1440), yielding a successful
creation. -/
theorem c4_createNote_validation_witness :
    requireUser tdb (some tidA) = .ok (tidA, tuA) ∧
    (∃ r, createNote tdb (some tidA)
        { title := "Hello", content := "World", billable := true,
          duration := some 1440 } 0 = .ok r) :=
  ⟨by decide,
   ((c4_createNote_validation tdb (some tidA)
      { title := "Hello", content := "World", billable := true,
        duration := some 1440 } 0 (tidA, tuA) (by decide)).1).mpr (by decide)⟩

/-- C5: for an existing note owned by resolved user A, a different resolved
user B calling updateNote or deleteNote on that note's id fails with the
Forbidden error (no state change, by mutation atomicity), while A
performing the same call (with valid present fields) succeeds. -/
theorem c5_ownership (db : DB) (authA authB : Option Identity)
    (iA iB : Identity) (uA uB : User) (n : Note) (args : UpdateNoteArgs)
    (hA : requireUser db authA = .ok (iA, uA))
    (hB : requireUser db authB = .ok (iB, uB))
    (hn : findNote db.notes args.id = some n)
    (hown : n.createdBy = uA.id)
    (hother : uB.id ≠ n.createdBy)
    (hvt : titleOptInvalid (args.title.map jsTrim) = false)
    (hvc : contentOptInvalid (args.content.map jsTrim) = false)
    (hvd : durationInvalid args.duration = false) :
    updateNote db authB args = .error (Err.ConvexError forbiddenUpdateMsg) ∧
    (∃ db2, updateNote db authA args = .ok db2) ∧
    deleteNote db authB args.id
      = .error (Err.ConvexError forbiddenDeleteMsg) ∧
    (∃ db2, deleteNote db authA args.id = .ok db2) := by
  have hBne : n.createdBy ≠ uB.id := fun hc => hother hc.symm
  refine ⟨?_, ?_, ?_, ?_⟩
  · simp [updateNote, hB, hn, hBne]
  · simp [updateNote, hA, hn, hown, hvt, hvc, hvd]
  · simp [deleteNote, hB, hn, hBne]
  · simp [deleteNote, hA, hn, hown]

/-- C5 witness: in the fixture, user B is forbidden to update or delete
note tn1 (owned by A) while user A succeeds at both. -/
theorem c5_ownership_witness :
    requireUser tdb (some tidA) = .ok (tidA, tuA) ∧
    requireUser tdb (some tidB) = .ok (tidB, tuB) ∧
    findNote tdb.notes 2 = some tn1 ∧
    (updateNote tdb (some tidB)
        { id := 2, title := none, content := none, billable := none,
          duration := none, billStatus := some BillStatus.billed }
      = .error (Err.ConvexError forbiddenUpdateMsg) ∧
    (∃ db2, updateNote tdb (some tidA)
        { id := 2, title := none, content := none, billable := none,
          duration := none, billStatus := some BillStatus.billed }
      = .ok db2) ∧
    deleteNote tdb (some tidB) 2
      = .error (Err.ConvexError forbiddenDeleteMsg) ∧
    (∃ db2, deleteNote tdb (some tidA) 2 = .ok db2)) :=
  ⟨by decide, by decide, by decide,
   c5_ownership tdb (some tidA) (some tidB) tidA tidB tuA tuB tn1
     { id := 2, title := none, content := none, billable := none,
       duration := none, billStatus := some BillStatus.billed }
     (by decide) (by decide) (by decide) (by decide) (by decide)
     (by decide) (by decide) (by decide)⟩

/-- C6: for a subject that already has a (unique) User row, two successive
store calls with an identical identity assertion return the same User id,
and the second call performs zero writes and leaves the database state
unchanged (the first call has already made the stored name equal the
computed preferred name). -/
theorem c6_store_idempotent (db : DB) (ident : Identity) (u : User)
    (t1 t2 : Nat)
    (h : uniqueByClerkId db.users ident.subject = .ok (some u)) :
    ∃ db1 w1, store db (some ident) t1 = .ok (u.id, db1, w1) ∧
      store db1 (some ident) t2 = .ok (u.id, db1, 0) := by
  have hl := lookup_of_unique_some db.users ident.subject u h
  by_cases hname : u.name = ident.name.getD (ident.email.getD "Unnamed User")
  · refine ⟨db, 0, ?_, ?_⟩ <;> simp [store, h, ← hname]
  · refine ⟨{ db with users := (patchUserName db.users u.id
        (ident.name.getD (ident.email.getD "Unnamed User"))) }, 1, ?_, ?_⟩
    · simp [store, h, hname]
    · have hl2 : lookupByClerkId
          (patchUserName db.users u.id
            (ident.name.getD (ident.email.getD "Unnamed User")))
          ident.subject
          = [{ u with name := ident.name.getD (ident.email.getD "Unnamed User") }] := by
        rw [lookup_patchUserName, hl]
        simp
      have h2 : uniqueByClerkId
          (patchUserName db.users u.id
            (ident.name.getD (ident.email.getD "Unnamed User")))
          ident.subject
          = .ok (some { u with
              name := ident.name.getD (ident.email.getD "Unnamed User") }) := by
        unfold uniqueByClerkId
        rw [hl2]
      simp [store, h2]

/-- C6 witness: two successive store calls for the existing subject "a"
whose assertion carries a drifted name; both return id 0 and the second
performs zero writes. -/
theorem c6_store_idempotent_witness :
    uniqueByClerkId tdb.users "a" = .ok (some tuA) ∧
    (∃ db1 w1,
      store tdb (some { subject := "a", name := some "Alice", email := none }) 50
        = .ok (tuA.id, db1, w1) ∧
      store db1 (some { subject := "a", name := some "Alice", email := none }) 60
        = .ok (tuA.id, db1, 0)) :=
  ⟨by decide,
   c6_store_idempotent tdb
     { subject := "a", name := some "Alice", email := none } tuA 50 60
     (by decide)⟩

/-- C7: updateNote with only billStatus present patches exactly billStatus
of the addressed note: the resulting state maps the addressed note to the
same note with billStatus replaced, leaving title, content, billable,
duration, createdBy and createdAt untouched, every other note identical,
and the users table identical. -/
theorem c7_updateNote_only_billStatus (db : DB) (auth : Option Identity)
    (i : Identity) (u : User) (n : Note) (idv : Nat) (s : BillStatus)
    (h : requireUser db auth = .ok (i, u))
    (hn : findNote db.notes idv = some n)
    (hown : n.createdBy = u.id) :
    updateNote db auth
        { id := idv, title := none, content := none, billable := none,
          duration := none, billStatus := some s }
      = .ok { db with notes := db.notes.map (fun m =>
          if m.id = idv then { m with billStatus := s } else m) } := by
  simp [updateNote, h, hn, hown, titleOptInvalid, contentOptInvalid,
    durationInvalid, patchNote]

/-- C7 witness: user A sets only billStatus of note tn1 to billed; the
resulting state changes exactly that field of that note. -/
theorem c7_updateNote_only_billStatus_witness :
    requireUser tdb (some tidA) = .ok (tidA, tuA) ∧
    findNote tdb.notes 2 = some tn1 ∧
    updateNote tdb (some tidA)
        { id := 2, title := none, content := none, billable := none,
          duration := none, billStatus := some BillStatus.billed }
      = .ok { tdb with notes := tdb.notes.map (fun m =>
          if m.id = 2 then { m with billStatus := BillStatus.billed }
          else m) } :=
  ⟨by decide, by decide,
   c7_updateNote_only_billStatus tdb (some tidA) tidA tuA tn1 2
     BillStatus.billed (by decide) (by decide) (by decide)⟩

/-- C8: on first authentication of a never-seen subject, store inserts a
User whose name falls back to "Unnamed User" and email to
"No email provided" when the assertion carries neither, and whose name
falls back to the email when only the email is present. -/
theorem c8_store_fallback_naming (db : DB) (subject : String) (now : Nat)
    (h : uniqueByClerkId db.users subject = .ok none) :
    store db (some { subject := subject, name := none, email := none }) now
      = .ok (db.nextId,
             { db with
               users := db.users ++
                 [{ id := db.nextId, clerkId := subject,
                    email := "No email provided", name := "Unnamed User",
                    createdAt := now }],
               nextId := db.nextId + 1 }, 1) ∧
    ∀ e, store db
        (some { subject := subject, name := none, email := some e }) now
      = .ok (db.nextId,
             { db with
               users := db.users ++
                 [{ id := db.nextId, clerkId := subject, email := e,
                    name := e, createdAt := now }],
               nextId := db.nextId + 1 }, 1) := by
  constructor
  · simp [store, h]
  · intro e
    simp [store, h]

/-- C8 witness: the fallback-naming theorem applied to the empty database
and the fresh subject "u2". -/
theorem c8_store_fallback_naming_witness :
    uniqueByClerkId (DB.users ⟨[], [], 0⟩) "u2" = .ok none ∧
    (store ⟨[], [], 0⟩ (some { subject := "u2", name := none, email := none }) 7
      = .ok (0, ⟨[⟨0, "u2", "No email provided", "Unnamed User", 7⟩], [], 1⟩, 1) ∧
    ∀ e, store ⟨[], [], 0⟩
        (some { subject := "u2", name := none, email := some e }) 7
      = .ok (0, ⟨[⟨0, "u2", e, e, 7⟩], [], 1⟩, 1)) :=
  ⟨by decide, c8_store_fallback_naming ⟨[], [], 0⟩ "u2" 7 (by decide)⟩

/-- C9: for an authenticated caller whose user does not resolve (no row, or
a duplicate pair downgraded to null by getCurrentUserOptional), getNotes
with the createdByCurrentUser filter set — combined with billStatus or
alone — returns the empty sequence rather than an error. -/
theorem c9_getNotes_unresolved_user_empty (db : DB) (ident : Identity)
    (s : BillStatus)
    (h : getCurrentUserOptional db (some ident) = none) :
    getNotes db (some ident)
        (some { createdByCurrentUser := some true, billStatus := some s })
      = .ok [] ∧
    getNotes db (some ident)
        (some { createdByCurrentUser := some true, billStatus := none })
      = .ok [] := by
  constructor <;> simp [getNotes, requireAuth, h]

/-- C9 witness: a database holding two duplicate rows for subject "u1"; the
optional lookup downgrades the duplicate to null and getNotes returns []
in both filter shapes. -/
theorem c9_getNotes_unresolved_user_empty_witness :
    getCurrentUserOptional
        ⟨[⟨0, "u1", "e", "x", 0⟩, ⟨1, "u1", "e2", "y", 0⟩], [], 2⟩
        (some { subject := "u1", name := none, email := none }) = none ∧
    (getNotes ⟨[⟨0, "u1", "e", "x", 0⟩, ⟨1, "u1", "e2", "y", 0⟩], [], 2⟩
        (some { subject := "u1", name := none, email := none })
        (some { createdByCurrentUser := some true,
                billStatus := some BillStatus.open_ }) = .ok [] ∧
    getNotes ⟨[⟨0, "u1", "e", "x", 0⟩, ⟨1, "u1", "e2", "y", 0⟩], [], 2⟩
        (some { subject := "u1", name := none, email := none })
        (some { createdByCurrentUser := some true, billStatus := none })
      = .ok []) :=
  ⟨by decide,
   c9_getNotes_unresolved_user_empty
     ⟨[⟨0, "u1", "e", "x", 0⟩, ⟨1, "u1", "e2", "y", 0⟩], [], 2⟩
     { subject := "u1", name := none, email := none } BillStatus.open_
     (by decide)⟩

/-- C10: getNotes treats createdByCurrentUser present with value false
exactly like an absent field: with billStatus it equals the
billStatus-only call, alone it equals the no-filter call, and the latter
returns all notes of all owners. -/
theorem c10_false_filter_like_absent (db : DB) (ident : Identity)
    (s : BillStatus) :
    getNotes db (some ident)
        (some { createdByCurrentUser := some false, billStatus := some s })
      = getNotes db (some ident)
          (some { createdByCurrentUser := none, billStatus := some s }) ∧
    getNotes db (some ident)
        (some { createdByCurrentUser := some false, billStatus := none })
      = getNotes db (some ident) none ∧
    ∃ l, getNotes db (some ident)
        (some { createdByCurrentUser := some false, billStatus := none })
      = .ok l ∧ l.Perm db.notes :=
  ⟨rfl, rfl, ⟨_, rfl, sortByCreatedAtDesc_perm _⟩⟩

end VCC
